import Mathlib

/-!
Shallow embedding of `src/DigitalGovernanceFramework.jsx`: the compliance
evaluation and incident reconciliation loop of the Bandung Raya digital
governance dashboard.  JavaScript numbers are modelled as `ℚ` (the constants
involved are exact decimals), JavaScript strings as `String`, Firestore
documents as explicit structures, and the asynchronous scheduler as an
explicit event-step relation.
-/

/-- The value stored in the `timestamp` field of an incident draft.
`server` models the `serverTimestamp()` sentinel from the Firestore SDK
(line 106/118 of the source); `client t` models an ordinary client-side
time value `t` (used only to state properties, the source never produces
one). -/
inductive TsValue where
  | server : TsValue
  | client : String → TsValue
deriving DecidableEq

/-- An incident draft as pushed by `checkCompliance` (lines 101-107 and
113-119): fields `type`, `area`, `description`, `status`, and the
client-attached `timestamp` sentinel. -/
structure Draft where
  type : String
  area : String
  description : String
  status : String
  timestamp : TsValue
deriving DecidableEq

/-- The document actually passed to `addDoc` (line 199): the draft with the
`timestamp` field destructured away (line 198), leaving exactly
`type`, `area`, `description`, `status`. -/
structure SavedRecord where
  type : String
  area : String
  description : String
  status : String
deriving DecidableEq

/-- The `governanceData` state object (lines 130-134): metric fields plus
the `lastUpdate` display string. -/
structure GovData where
  wasteVolume : ℚ
  trafficDensity : ℚ
  lastUpdate : String
deriving DecidableEq

/-- `REGULATORY_RULES.WASTE_COMPLIANCE` (lines 74-79). -/
structure WasteRule where
  targetArea : String
  collectionSchedule : List String
  maxVolume : ℚ
  fine : ℕ

/-- `REGULATORY_RULES.TRAFFIC_COMPLIANCE` (lines 81-85). -/
structure TrafficRule where
  maxDensity : ℚ
  sensorLocations : List String
  alertLevel : String

def WASTE_COMPLIANCE : WasteRule :=
  { targetArea := "Cihampelas"
    collectionSchedule := ["Monday", "Wednesday", "Friday"]
    maxVolume := 8/10
    fine := 500000 }

def TRAFFIC_COMPLIANCE : TrafficRule :=
  { maxDensity := 75/100
    sensorLocations := ["Dago", "Pasteur", "Gedebage"]
    alertLevel := "Kritis" }

/-- Model of JavaScript `x.toFixed(0)` on a (non-negative) number: round to
the nearest integer, ties toward the larger candidate, exactly as ECMA-262
specifies for `toFixed` (pick n minimising the distance, the larger n on a
tie), i.e. `⌊x + 1/2⌋`. -/
def toFixed0 (q : ℚ) : ℤ := ⌊q + 1/2⌋

/-- The interpolated percentage `(x * 100).toFixed(0)` used in the incident
descriptions (lines 104 and 116). -/
def pctStr (q : ℚ) : String := toString (toFixed0 (q * 100))

/-- The waste incident draft pushed at lines 101-107. -/
def wasteIncident (data : GovData) : Draft :=
  { type := "Sampah"
    area := WASTE_COMPLIANCE.targetArea
    description := "Volume sampah melebihi batas (" ++ pctStr data.wasteVolume
      ++ "%) di " ++ WASTE_COMPLIANCE.targetArea ++ "."
    status := "Pelanggaran Berat"
    timestamp := TsValue.server }

/-- The traffic incident draft pushed at lines 113-119. -/
def trafficIncident (data : GovData) : Draft :=
  { type := "Lalu Lintas"
    area := "Dago/Pasteur (Simulasi)"
    description := "Kepadatan lalu lintas kritis (" ++ pctStr data.trafficDensity
      ++ "%). Perlu intervensi sinyal otomatis."
    status := TRAFFIC_COMPLIANCE.alertLevel
    timestamp := TsValue.server }

/-- Result record of `checkCompliance`. -/
structure CCResult where
  isOverallCompliant : Bool
  incidents : List Draft
deriving DecidableEq

/-- `checkCompliance` (lines 94-123): starts compliant, pushes the waste
draft when `wasteVolume > maxVolume`, then the traffic draft when
`trafficDensity > maxDensity`; `isOverallCompliant` is cleared when either
branch fires. -/
def checkCompliance (data : GovData) : CCResult :=
  { isOverallCompliant :=
      !(decide (data.wasteVolume > WASTE_COMPLIANCE.maxVolume)
        || decide (data.trafficDensity > TRAFFIC_COMPLIANCE.maxDensity))
    incidents :=
      (if data.wasteVolume > WASTE_COMPLIANCE.maxVolume
        then [wasteIncident data] else [])
      ++ (if data.trafficDensity > TRAFFIC_COMPLIANCE.maxDensity
        then [trafficIncident data] else []) }

/-- Line 178: `Math.min(1.0, wasteVolume + (Math.random() * 0.2 - 0.08))`
for a random draw `r ∈ [0,1)`.  Note: only an upper clamp at 1, no lower
clamp at 0. -/
def nextWasteVolume (w r : ℚ) : ℚ := min 1 (w + (r * (2/10) - 8/100))

/-- Line 179: `Math.min(1.0, trafficDensity + (Math.random() * 0.3 - 0.15))`
for a random draw `r ∈ [0,1)`. -/
def nextTrafficDensity (t r : ℚ) : ℚ := min 1 (t + (r * (3/10) - 15/100))

/-- Iterating the simulator of lines 178-179 over a list of random draws
`(r1, r2)` per tick, starting from the pair (wasteVolume, trafficDensity). -/
def simFrom (p : ℚ × ℚ) : List (ℚ × ℚ) → ℚ × ℚ
  | [] => p
  | r :: rs => simFrom (nextWasteVolume p.1 r.1, nextTrafficDensity p.2 r.2) rs

/-- The initial metric values of the `governanceData` state (lines 131-132). -/
def initialMetrics : ℚ × ℚ := (1/2, 2/5)

/-- A draw of `Math.random()` is a value in `[0, 1)`. -/
def ValidRandom (r : ℚ) : Prop := 0 ≤ r ∧ r < 1

/-- Line 198: `const (timestamp: clientTimestamp, ...incidentToSave) = incident`
— the persisted document is the draft minus its `timestamp` field. -/
def stripTimestamp (d : Draft) : SavedRecord :=
  { type := d.type, area := d.area, description := d.description, status := d.status }

/-- The message logged by the `catch` block at line 202. -/
def firestoreFailMsg : String := "Failed to log incident to Firestore:"

/-- The sequential `for ... await addDoc` loop inside `try/catch`
(lines 195-203): appends the stripped drafts one at a time; each append
either resolves (`true` outcome) or rejects (`false`), in which case the
exception aborts the remaining iterations and the catch block logs the
failure.  When the outcome list is exhausted, remaining appends resolve. -/
def appendSeq (store : List SavedRecord) (elog : List String) :
    List Draft → List Bool → List SavedRecord × List String
  | [], _ => (store, elog)
  | d :: ds, [] => appendSeq (store ++ [stripTimestamp d]) elog ds []
  | d :: ds, ok :: outs =>
      if ok then appendSeq (store ++ [stripTimestamp d]) elog ds outs
      else (store, elog ++ [firestoreFailMsg])

/-- A document of the incident collection as delivered by the store
subscription: the Firestore auto-id, the saved fields, and an optional
server-assigned `timestamp` (absent on every record this app writes,
because `stripTimestamp` removed the `serverTimestamp()` sentinel before
`addDoc`; it is modelled as epoch seconds when a writer did set one). -/
structure StoredDoc where
  id : String
  data : SavedRecord
  timestamp : Option ℕ
deriving DecidableEq

/-- Two-digit rendering of minutes/seconds. -/
def twoDigits (n : ℕ) : String :=
  if n < 10 then "0" ++ toString n else toString n

/-- Model of `Date.prototype.toLocaleTimeString()` (en-US): the time of day
of the instant, rendered as `H:MM:SS AM` / `H:MM:SS PM` on a 12-hour
clock.  The calendar date is lost. -/
def toLocaleTimeString (t : ℕ) : String :=
  let s := t % 86400
  let hh := s / 3600
  let h12 := if hh % 12 = 0 then 12 else hh % 12
  let ap := if hh < 12 then " AM" else " PM"
  toString h12 ++ ":" ++ twoDigits (s % 3600 / 60) ++ ":" ++ twoDigits (s % 60) ++ ap

/-- Line 158: `doc.data().timestamp?.toDate ? ...toLocaleTimeString() : 'N/A'`. -/
def displayTimestamp (ts : Option ℕ) : String :=
  match ts with
  | some t => toLocaleTimeString t
  | none => "N/A"

/-- One element of `fetchedIncidents` (lines 154-159): the doc id, the
spread document data, and the display timestamp string. -/
structure FetchedIncident where
  id : String
  type : String
  area : String
  description : String
  status : String
  timestamp : String
deriving DecidableEq

/-- Lines 154-159: map a delivered document to a fetched incident. -/
def fetchIncident (d : StoredDoc) : FetchedIncident :=
  { id := d.id
    type := d.data.type
    area := d.data.area
    description := d.data.description
    status := d.data.status
    timestamp := displayTimestamp d.timestamp }

/-- Model of `new Date(s).getTime()` for the strings this handler produces.
Every display timestamp here is either `N/A` or a bare locale time-of-day
string such as `10:01:40 PM`; neither is in the ECMA-262 date-time string
format (which requires a date component), so `new Date` yields an invalid
date and `getTime()` is NaN — modelled as `none`. -/
def jsDateParse (_s : String) : Option ℤ := none

/-- The comparator of line 162:
`(a, b) => new Date(b.timestamp) - new Date(a.timestamp)`.
`none` is NaN: any arithmetic with it is NaN. -/
def sortCompareDesc (a b : FetchedIncident) : Option ℤ :=
  match jsDateParse b.timestamp, jsDateParse a.timestamp with
  | some tb, some ta => some (tb - ta)
  | _, _ => none

/-- Whether the JS sort keeps `a` before `b`: per ECMA-262 SortCompare, a
comparator result of NaN is coerced to +0, so elements swap only on a
strictly positive result. -/
def keepBefore (a b : FetchedIncident) : Bool :=
  match sortCompareDesc a b with
  | some v => decide (v ≤ 0)
  | none => true

/-- Stable insertion of `x` (originally before every element of the list)
guided by `keepBefore`; together with `jsSortIncidents` this models the
stable `Array.prototype.sort` of line 162. -/
def insertIncident (x : FetchedIncident) : List FetchedIncident → List FetchedIncident
  | [] => [x]
  | y :: ys => if keepBefore x y then x :: y :: ys else y :: insertIncident x ys

/-- Stable sort with the line-162 comparator (`Array.prototype.sort` is
stable per ECMA-262). -/
def jsSortIncidents : List FetchedIncident → List FetchedIncident
  | [] => []
  | x :: xs => insertIncident x (jsSortIncidents xs)

/-- The `onSnapshot` success handler (lines 153-163): map the delivered
docs to fetched incidents, sort with the line-162 comparator, and return
the new `incidents` list. -/
def handleSnapshot (docs : List StoredDoc) : List FetchedIncident :=
  jsSortIncidents (docs.map fetchIncident)

/-- The component state of the `App` component relevant to the core loop:
`governanceData`, `incidents`, `systemStatus`, `isSimulationRunning`
(lines 130-137), the collection-ref availability (line 175 guard), the
remote store contents, and the console error log. -/
structure AppState where
  governanceData : GovData
  incidents : List FetchedIncident
  systemStatus : String
  isSimulationRunning : Bool
  hasCollectionRef : Bool
  store : List SavedRecord
  errorLog : List String

/-- The `newData` object built at lines 178-185 from the previous
`governanceData` and the two random draws of this tick. -/
def newDataOf (st : AppState) (r1 r2 : ℚ) (nowStr : String) : GovData :=
  { wasteVolume := nextWasteVolume st.governanceData.wasteVolume r1
    trafficDensity := nextTrafficDensity st.governanceData.trafficDensity r2
    lastUpdate := nowStr }

/-- `runDigitalScan` (lines 174-208): early return unless the simulation is
running and the collection ref exists; derive `newData`; store it; evaluate
`checkCompliance`; if incidents fired, set status to Insiden Terdeteksi and
run the append loop (with per-append outcomes supplied by the environment),
else set status to Komplian Penuh. -/
def runDigitalScan (st : AppState) (r1 r2 : ℚ) (nowStr : String)
    (outcomes : List Bool) : AppState :=
  if !st.isSimulationRunning || !st.hasCollectionRef then st
  else
    let newData := newDataOf st r1 r2 nowStr
    let res := checkCompliance newData
    if res.incidents.length > 0 then
      let pair := appendSeq st.store st.errorLog res.incidents outcomes
      { st with governanceData := newData
                systemStatus := "Insiden Terdeteksi"
                store := pair.1
                errorLog := pair.2 }
    else
      { st with governanceData := newData, systemStatus := "Komplian Penuh" }

/-- The `onSnapshot` error callback (lines 164-167):
`console.error(...)` then `setSystemStatus('DB Error')`.  It touches no
other piece of state — in particular it does not clear `incidents`. -/
def handleSnapshotFailure (st : AppState) : AppState :=
  { st with systemStatus := "DB Error"
            errorLog := st.errorLog ++ ["Error fetching incidents:"] }

/-- The `onSnapshot` success callback applied to the component state
(line 163: `setIncidents(fetchedIncidents)`): only `incidents` changes. -/
def applyDelivery (st : AppState) (docs : List StoredDoc) : AppState :=
  { st with incidents := handleSnapshot docs }

example : (checkCompliance ⟨81/100, 2/5, "t"⟩).incidents.length = 1 := by
  rw [checkCompliance]; norm_num [WASTE_COMPLIANCE, TRAFFIC_COMPLIANCE]
example :
    (checkCompliance ⟨81/100, 2/5, "t"⟩).incidents.map (fun d => d.description)
      = ["Volume sampah melebihi batas (81%) di Cihampelas."] := by
  rw [checkCompliance]
  norm_num [wasteIncident, pctStr, toFixed0, WASTE_COMPLIANCE, TRAFFIC_COMPLIANCE]
  rfl

/-- One in-flight invocation of the append loop of `runDigitalScan`: the
tick that spawned it, the number of drafts it has to append (`total`), and
how many appends it has started so far (`started`; the latest one is the
in-flight `await addDoc`). -/
structure TickProc where
  tickId : ℕ
  total : ℕ
  started : ℕ
deriving DecidableEq

/-- State of the interval scheduler of lines 211-217 together with the
in-flight asynchronous append loops: `setInterval(runDigitalScan, 4000)`
invokes `runDigitalScan` on every timer fire; each invocation that reaches
the append loop becomes a `TickProc` that advances when its pending
`addDoc` promise resolves.  `appendLog` records, in start order, every
`addDoc` call as (tick id, draft index). -/
structure SchedState where
  isSimulationRunning : Bool
  hasCollectionRef : Bool
  procs : List TickProc
  appendLog : List (ℕ × ℕ)
  nextTick : ℕ
deriving DecidableEq

/-- Events of the JavaScript event loop relevant to the scheduler: the
interval timer fires (with the number of drafts the new scan produces), or
the in-flight `addDoc` of the given tick resolves. -/
inductive SchedEvent where
  | timerFire : ℕ → SchedEvent
  | storeResolve : ℕ → SchedEvent
deriving DecidableEq

/-- Resolve the pending `addDoc` of tick `tid`: the first matching proc
either starts its next append (logging it) or, having started all of its
appends, completes and is removed. -/
def resolveProc : List TickProc → ℕ → List TickProc × List (ℕ × ℕ)
  | [], _ => ([], [])
  | p :: ps, tid =>
      if p.tickId = tid then
        if p.started < p.total then
          ({ p with started := p.started + 1 } :: ps, [(tid, p.started)])
        else (ps, [])
      else
        let r := resolveProc ps tid
        (p :: r.1, r.2)

/-- One step of the scheduler model.  On `timerFire`, `runDigitalScan` runs:
its only early return is the line-175 guard (simulation not running or no
collection ref); nothing in lines 174-217 consults the in-flight append
loops, so a new tick with a non-empty draft list starts its first `addDoc`
immediately, pending appends or not.  On `storeResolve`, the matching
append loop advances. -/
def stepSched (st : SchedState) : SchedEvent → SchedState
  | SchedEvent.timerFire k =>
      if st.isSimulationRunning && st.hasCollectionRef then
        if k = 0 then { st with nextTick := st.nextTick + 1 }
        else
          { st with procs := st.procs ++ [⟨st.nextTick, k, 1⟩]
                    appendLog := st.appendLog ++ [(st.nextTick, 0)]
                    nextTick := st.nextTick + 1 }
      else st
  | SchedEvent.storeResolve tid =>
      let r := resolveProc st.procs tid
      { st with procs := r.1, appendLog := st.appendLog ++ r.2 }

/-- Run the scheduler model over a list of event-loop events. -/
def runSched (st : SchedState) : List SchedEvent → SchedState
  | [] => st
  | e :: es => runSched (stepSched st e) es

/-- The scheduler state right after the subscription effect started the
simulation (lines 146-147): running, collection ref bound, no pending
append loops. -/
def schedInit : SchedState :=
  { isSimulationRunning := true
    hasCollectionRef := true
    procs := []
    appendLog := []
    nextTick := 1 }

/-- Collapse consecutive duplicates, keeping one representative per
maximal run. -/
def blockIds : List ℕ → List ℕ
  | [] => []
  | [x] => [x]
  | x :: y :: r => if x = y then blockIds (y :: r) else x :: blockIds (y :: r)

/-- A log of tick ids is serialized when each tick occupies one contiguous
block: collapsing runs must leave no repeated id. -/
def noInterleave (l : List ℕ) : Bool := decide (blockIds l).Nodup

/-- Normalized persistence timestamp of a fetched incident, following the
specification wording for the reconciler: the server-assigned instant when
resolved, `now` when still pending/absent. -/
def normalizedTs (docs : List StoredDoc) (now : ℕ) (i : FetchedIncident) : ℕ :=
  match docs.find? (fun d => d.id = i.id) with
  | some d => match d.timestamp with
    | some t => t
    | none => now
  | none => now

/-- Strict descent of `f` along a list (adjacent pairs suffice since `<`
is transitive). -/
def strictDescBy (f : FetchedIncident → ℕ) : List FetchedIncident → Bool
  | [] => true
  | [_] => true
  | a :: b :: r => decide (f b < f a) && strictDescBy f (b :: r)

/-- The ReconciledFeed invariant claimed by the specification, stated
against the feed the `onSnapshot` handler actually produces: strictly
descending by normalized timestamp, with no duplicate ids. -/
def ReconciledFeedInvariant (docs : List StoredDoc) (now : ℕ) : Prop :=
  strictDescBy (normalizedTs docs now) (handleSnapshot docs) = true
    ∧ ((handleSnapshot docs).map (fun i => i.id)).Nodup

/-- Whether the character list `n` is an initial block of `h`. -/
def listHasLead : List Char → List Char → Bool
  | [], _ => true
  | _ :: _, [] => false
  | c :: n, d :: h => c = d && listHasLead n h

/-- Whether the character list `n` occurs contiguously inside `h`. -/
def listHasSub (n : List Char) : List Char → Bool
  | [] => listHasLead n []
  | d :: h => listHasLead n (d :: h) || listHasSub n h

/-- The waste threshold is not exceeded when `wasteVolume ≤ 0.8`. -/
lemma waste_not_over {w : ℚ} (h : w ≤ 8/10) :
    ¬ (w > WASTE_COMPLIANCE.maxVolume) := by
  rw [WASTE_COMPLIANCE]
  exact not_lt.mpr h

/-- The traffic threshold is not exceeded when `trafficDensity ≤ 0.75`. -/
lemma traffic_not_over {t : ℚ} (h : t ≤ 75/100) :
    ¬ (t > TRAFFIC_COMPLIANCE.maxDensity) := by
  rw [TRAFFIC_COMPLIANCE]
  exact not_lt.mpr h

/-- C7: for every snapshot with `wasteVolume ≤ 0.8` and
`trafficDensity ≤ 0.75`, `checkCompliance` reports overall compliance and
produces no incident drafts; both comparisons are strict, so the boundary
values themselves fire nothing. -/
theorem c7_compliant_below_thresholds (data : GovData)
    (hw : data.wasteVolume ≤ 8/10) (ht : data.trafficDensity ≤ 75/100) :
    checkCompliance data = { isOverallCompliant := true, incidents := [] } := by
  rw [checkCompliance]
  simp [waste_not_over hw, traffic_not_over ht]

/-- C7 witness: at the boundary snapshot (0.8, 0.75) the evaluator returns
compliant with no incidents. -/
theorem c7_witness :
    checkCompliance ⟨8/10, 75/100, "t0"⟩
      = { isOverallCompliant := true, incidents := [] } :=
  c7_compliant_below_thresholds ⟨8/10, 75/100, "t0"⟩ (le_refl _) (le_refl _)

/-- The interpolated percentage at `wasteVolume = 0.81` is the string 81. -/
lemma pctStr_81 : pctStr (81/100) = "81" := by
  rw [pctStr]
  have h : toFixed0 ((81:ℚ)/100 * 100) = 81 := by
    rw [toFixed0]; norm_num
  rw [h]
  rfl

/-- C8: for every snapshot with `wasteVolume = 0.81` and `trafficDensity`
within its limit, the evaluator returns exactly one draft — the waste
draft (type Sampah) — whose description contains the substring 81. -/
theorem c8_waste_draft_at_81 (data : GovData)
    (hw : data.wasteVolume = 81/100) (ht : data.trafficDensity ≤ 75/100) :
    (checkCompliance data).incidents = [wasteIncident data]
      ∧ (wasteIncident data).type = "Sampah"
      ∧ listHasSub "81".data (wasteIncident data).description.data = true := by
  refine ⟨?_, rfl, ?_⟩
  · have h1 : data.wasteVolume > WASTE_COMPLIANCE.maxVolume := by
      rw [hw, WASTE_COMPLIANCE]; norm_num
    rw [checkCompliance]
    simp [h1, traffic_not_over ht]
  · have hd : (wasteIncident data).description
        = "Volume sampah melebihi batas (" ++ "81" ++ "%) di "
          ++ "Cihampelas" ++ "." := by
      rw [wasteIncident]
      rw [hw, pctStr_81, WASTE_COMPLIANCE]
    rw [hd]
    decide

/-- C8 witness: the snapshot (0.81, 0.75) yields exactly the waste draft,
with 81 in its description. -/
theorem c8_witness :
    (checkCompliance ⟨81/100, 75/100, "t0"⟩).incidents
        = [wasteIncident ⟨81/100, 75/100, "t0"⟩]
      ∧ (wasteIncident ⟨81/100, 75/100, "t0"⟩).type = "Sampah"
      ∧ listHasSub "81".data
          (wasteIncident ⟨81/100, 75/100, "t0"⟩).description.data = true :=
  c8_waste_draft_at_81 ⟨81/100, 75/100, "t0"⟩ rfl (le_refl _)

/-- A snapshot breaching the waste threshold, with a concrete observation
time string. -/
def exData6 : GovData := ⟨9/10, 2/5, "10:15:00"⟩

/-- C6 counterexample: on a snapshot that fires the waste rule, the
produced draft does not carry the snapshot's observation time — its
`timestamp` field is the `serverTimestamp()` sentinel, which differs from
any client-side time value, in particular from the snapshot's. -/
theorem c6_timestamp_counterexample :
    (checkCompliance exData6).incidents.map (fun d => d.timestamp)
        = [TsValue.server]
      ∧ TsValue.server ≠ TsValue.client exData6.lastUpdate := by
  constructor
  · have h1 : (exData6.wasteVolume > WASTE_COMPLIANCE.maxVolume) := by
      rw [exData6, WASTE_COMPLIANCE]; norm_num
    have h2 : ¬ (exData6.trafficDensity > TRAFFIC_COMPLIANCE.maxDensity) := by
      rw [exData6, TRAFFIC_COMPLIANCE]; norm_num
    rw [checkCompliance]
    simp [h1, h2, wasteIncident]
  · simp

/-- C6 (amended): every draft a fired rule produces is exactly the
template draft of that rule — description interpolated with the current
percentage, status the rule's severity label — and its `timestamp` field
is the server-timestamp sentinel, not the snapshot's observation time. -/
theorem c6_draft_shape (data : GovData) (d : Draft)
    (h : d ∈ (checkCompliance data).incidents) :
    d.timestamp = TsValue.server
      ∧ d.timestamp ≠ TsValue.client data.lastUpdate
      ∧ (d = wasteIncident data ∨ d = trafficIncident data) := by
  rw [checkCompliance] at h
  simp only [List.mem_append] at h
  rcases h with h | h
  · split at h
    · simp only [List.mem_singleton] at h
      subst h
      exact ⟨rfl, by simp [wasteIncident], Or.inl rfl⟩
    · simp at h
  · split at h
    · simp only [List.mem_singleton] at h
      subst h
      exact ⟨rfl, by simp [trafficIncident], Or.inr rfl⟩
    · simp at h

/-- C6 witness: applying the amended statement to the concrete breaching
snapshot and its waste draft. -/
theorem c6_draft_shape_witness :
    (wasteIncident exData6).timestamp = TsValue.server
      ∧ (wasteIncident exData6).timestamp ≠ TsValue.client exData6.lastUpdate
      ∧ (wasteIncident exData6 = wasteIncident exData6
          ∨ wasteIncident exData6 = trafficIncident exData6) :=
  c6_draft_shape exData6 (wasteIncident exData6) (by
    rw [checkCompliance]
    have h1 : (exData6.wasteVolume > WASTE_COMPLIANCE.maxVolume) := by
      rw [exData6, WASTE_COMPLIANCE]; norm_num
    simp [h1])

/-- C2 counterexample: three consecutive ticks whose random draws are all
0 (a legal value of Math.random) drive `trafficDensity` from its initial
0.4 to -0.05: the simulator has no lower clamp, so a reachable snapshot
has a field below 0. -/
theorem c2_below_zero_counterexample :
    (simFrom initialMetrics [(0, 0), (0, 0), (0, 0)]).2 < 0
      ∧ ValidRandom 0 := by
  constructor
  · rw [simFrom, simFrom, simFrom, simFrom]
    norm_num [initialMetrics, nextWasteVolume, nextTrafficDensity, min_def]
  · exact ⟨le_refl 0, by norm_num⟩

/-- C2 (amended): the simulator clamps only from above — from any snapshot
whose fields are at most 1 (in particular the initial one), every snapshot
reachable by any sequence of ticks keeps both fields at most 1; the lower
bound 0 of the claim does not hold (see the counterexample). -/
theorem c2_upper_clamp (p : ℚ × ℚ) (rs : List (ℚ × ℚ))
    (hw : p.1 ≤ 1) (ht : p.2 ≤ 1) :
    (simFrom p rs).1 ≤ 1 ∧ (simFrom p rs).2 ≤ 1 := by
  induction rs generalizing p with
  | nil => exact ⟨hw, ht⟩
  | cons r rs ih =>
      rw [simFrom]
      exact ih _ (min_le_left _ _) (min_le_left _ _)

/-- C2 witness: one tick from the initial snapshot stays at most 1 in both
fields. -/
theorem c2_upper_clamp_witness :
    (simFrom initialMetrics [(0, 0)]).1 ≤ 1
      ∧ (simFrom initialMetrics [(0, 0)]).2 ≤ 1 :=
  c2_upper_clamp initialMetrics [(0, 0)] (by norm_num [initialMetrics])
    (by norm_num [initialMetrics])

/-- When the guard of line 175 passes, a tick always executes: it installs
the fresh `newData` (so `lastUpdate` becomes this tick's time string),
keeps the running flags, and sets the status to one of the two
tick-outcome values. -/
lemma runDigitalScan_executes (st : AppState) (r1 r2 : ℚ) (nowStr : String)
    (outs : List Bool)
    (hrun : st.isSimulationRunning = true) (href : st.hasCollectionRef = true) :
    (runDigitalScan st r1 r2 nowStr outs).governanceData.lastUpdate = nowStr
      ∧ (runDigitalScan st r1 r2 nowStr outs).isSimulationRunning = true
      ∧ (runDigitalScan st r1 r2 nowStr outs).hasCollectionRef = true
      ∧ ((runDigitalScan st r1 r2 nowStr outs).systemStatus = "Insiden Terdeteksi"
          ∨ (runDigitalScan st r1 r2 nowStr outs).systemStatus = "Komplian Penuh") := by
  rw [runDigitalScan]
  simp only [hrun, href, Bool.not_true, Bool.or_self, Bool.false_eq_true, if_false]
  split
  · exact ⟨rfl, rfl, rfl, Or.inl rfl⟩
  · exact ⟨rfl, rfl, rfl, Or.inr rfl⟩

/-- An example running app state: simulation on, collection bound, feed
empty, metrics at their initial values. -/
def exRunningState : AppState :=
  { governanceData := ⟨1/2, 2/5, "t0"⟩
    incidents := []
    systemStatus := "Memantau"
    isSimulationRunning := true
    hasCollectionRef := true
    store := []
    errorLog := [] }

/-- C5 counterexample: after the subscription error callback sets the
status to DB Error, the very next scheduler tick (random draws 0, a
compliant snapshot) overwrites it with Komplian Penuh, even though the
subscription is still broken. -/
theorem c5_status_overwritten :
    (handleSnapshotFailure exRunningState).systemStatus = "DB Error"
      ∧ (runDigitalScan (handleSnapshotFailure exRunningState) 0 0 "t1" []).systemStatus
          = "Komplian Penuh" := by
  refine ⟨rfl, ?_⟩
  rw [runDigitalScan]
  have hng : ¬ ((newDataOf (handleSnapshotFailure exRunningState) 0 0 "t1").wasteVolume
      > WASTE_COMPLIANCE.maxVolume) := by
    rw [newDataOf, handleSnapshotFailure, exRunningState, WASTE_COMPLIANCE,
      nextWasteVolume]
    norm_num [min_def]
  have hnt : ¬ ((newDataOf (handleSnapshotFailure exRunningState) 0 0 "t1").trafficDensity
      > TRAFFIC_COMPLIANCE.maxDensity) := by
    rw [newDataOf, handleSnapshotFailure, exRunningState, TRAFFIC_COMPLIANCE,
      nextTrafficDensity]
    norm_num [min_def]
  have hcc : (checkCompliance (newDataOf (handleSnapshotFailure exRunningState) 0 0 "t1")).incidents = [] := by
    rw [checkCompliance]
    simp [hng, hnt]
  have hg : (!(handleSnapshotFailure exRunningState).isSimulationRunning
      || !(handleSnapshotFailure exRunningState).hasCollectionRef) = false := rfl
  rw [hg]
  simp only [Bool.false_eq_true, if_false, hcc]
  simp

/-- C5 (amended): the subscription error callback does set the status to
DB Error, but the value is not sticky: any tick that executes afterwards
replaces it with its own outcome (Insiden Terdeteksi or Komplian Penuh),
so a broken subscription does not keep the status at DB Error. -/
theorem c5_tick_overrides_store_error (st : AppState) (r1 r2 : ℚ)
    (nowStr : String) (outs : List Bool)
    (hrun : st.isSimulationRunning = true) (href : st.hasCollectionRef = true) :
    (handleSnapshotFailure st).systemStatus = "DB Error"
      ∧ ((runDigitalScan (handleSnapshotFailure st) r1 r2 nowStr outs).systemStatus
            = "Insiden Terdeteksi"
          ∨ (runDigitalScan (handleSnapshotFailure st) r1 r2 nowStr outs).systemStatus
            = "Komplian Penuh")
      ∧ (runDigitalScan (handleSnapshotFailure st) r1 r2 nowStr outs).systemStatus
          ≠ "DB Error" := by
  have h := runDigitalScan_executes (handleSnapshotFailure st) r1 r2 nowStr outs hrun href
  refine ⟨rfl, h.2.2.2, ?_⟩
  rcases h.2.2.2 with h' | h' <;> rw [h'] <;> decide

/-- C5 witness: the amended statement applied to the concrete running
state after a subscription failure. -/
theorem c5_tick_overrides_store_error_witness :
    (handleSnapshotFailure exRunningState).systemStatus = "DB Error"
      ∧ ((runDigitalScan (handleSnapshotFailure exRunningState) 0 0 "t1" []).systemStatus
            = "Insiden Terdeteksi"
          ∨ (runDigitalScan (handleSnapshotFailure exRunningState) 0 0 "t1" []).systemStatus
            = "Komplian Penuh")
      ∧ (runDigitalScan (handleSnapshotFailure exRunningState) 0 0 "t1" []).systemStatus
          ≠ "DB Error" :=
  c5_tick_overrides_store_error exRunningState 0 0 "t1" [] rfl rfl

/-- C4: when the first append of a tick fails, the whole tick appends
nothing further (the store is unchanged), the failure is logged, the
running flags survive, and every later tick still executes its
scan-evaluate-append cycle (its guard passes and it installs its own
fresh snapshot and outcome status). -/
theorem c4_failure_isolation (st : AppState) (r1 r2 : ℚ) (nowStr : String)
    (rest : List Bool)
    (hrun : st.isSimulationRunning = true) (href : st.hasCollectionRef = true)
    (hfire : (checkCompliance (newDataOf st r1 r2 nowStr)).incidents ≠ []) :
    (runDigitalScan st r1 r2 nowStr (false :: rest)).store = st.store
      ∧ (runDigitalScan st r1 r2 nowStr (false :: rest)).errorLog
          = st.errorLog ++ [firestoreFailMsg]
      ∧ (runDigitalScan st r1 r2 nowStr (false :: rest)).isSimulationRunning = true
      ∧ (runDigitalScan st r1 r2 nowStr (false :: rest)).hasCollectionRef = true
      ∧ ∀ r1' r2' now' outs',
          (runDigitalScan (runDigitalScan st r1 r2 nowStr (false :: rest))
              r1' r2' now' outs').governanceData.lastUpdate = now'
            ∧ ((runDigitalScan (runDigitalScan st r1 r2 nowStr (false :: rest))
                  r1' r2' now' outs').systemStatus = "Insiden Terdeteksi"
              ∨ (runDigitalScan (runDigitalScan st r1 r2 nowStr (false :: rest))
                  r1' r2' now' outs').systemStatus = "Komplian Penuh") := by
  obtain ⟨d, ds, hds⟩ := List.exists_cons_of_ne_nil hfire
  have happ : appendSeq st.store st.errorLog
      (checkCompliance (newDataOf st r1 r2 nowStr)).incidents (false :: rest)
        = (st.store, st.errorLog ++ [firestoreFailMsg]) := by
    rw [hds, appendSeq]
    simp
  have hlen : (checkCompliance (newDataOf st r1 r2 nowStr)).incidents.length > 0 := by
    rw [hds]; simp
  have hg : (!st.isSimulationRunning || !st.hasCollectionRef) = false := by
    rw [hrun, href]; rfl
  have hstep : runDigitalScan st r1 r2 nowStr (false :: rest)
      = { st with governanceData := newDataOf st r1 r2 nowStr
                  systemStatus := "Insiden Terdeteksi"
                  store := st.store
                  errorLog := st.errorLog ++ [firestoreFailMsg] } := by
    rw [runDigitalScan, hg]
    simp only [Bool.false_eq_true, if_false]
    rw [if_pos hlen, happ]
  refine ⟨by rw [hstep], by rw [hstep], by rw [hstep]; exact hrun,
    by rw [hstep]; exact href, ?_⟩
  intro r1' r2' now' outs'
  have h := runDigitalScan_executes (runDigitalScan st r1 r2 nowStr (false :: rest))
    r1' r2' now' outs' (by rw [hstep]; exact hrun) (by rw [hstep]; exact href)
  exact ⟨h.1, h.2.2.2⟩

/-- A running state whose waste volume is close enough to the threshold
that a large random draw breaches it on the next tick. -/
def exNearBreachState : AppState :=
  { governanceData := ⟨3/4, 2/5, "t0"⟩
    incidents := []
    systemStatus := "Memantau"
    isSimulationRunning := true
    hasCollectionRef := true
    store := []
    errorLog := [] }

/-- C4 witness: a tick from the near-breach state with random draw 0.95
fires the waste rule; its first append fails, the store stays empty, the
failure is logged, and later ticks still execute. -/
theorem c4_failure_isolation_witness :
    (runDigitalScan exNearBreachState (95/100) 0 "t1" (false :: [])).store
        = exNearBreachState.store
      ∧ (runDigitalScan exNearBreachState (95/100) 0 "t1" (false :: [])).errorLog
          = exNearBreachState.errorLog ++ [firestoreFailMsg]
      ∧ (runDigitalScan exNearBreachState (95/100) 0 "t1" (false :: [])).isSimulationRunning = true
      ∧ (runDigitalScan exNearBreachState (95/100) 0 "t1" (false :: [])).hasCollectionRef = true
      ∧ ∀ r1' r2' now' outs',
          (runDigitalScan (runDigitalScan exNearBreachState (95/100) 0 "t1" (false :: []))
              r1' r2' now' outs').governanceData.lastUpdate = now'
            ∧ ((runDigitalScan (runDigitalScan exNearBreachState (95/100) 0 "t1" (false :: []))
                  r1' r2' now' outs').systemStatus = "Insiden Terdeteksi"
              ∨ (runDigitalScan (runDigitalScan exNearBreachState (95/100) 0 "t1" (false :: []))
                  r1' r2' now' outs').systemStatus = "Komplian Penuh") :=
  c4_failure_isolation exNearBreachState (95/100) 0 "t1" [] rfl rfl (by
    have h1 : (newDataOf exNearBreachState (95/100) 0 "t1").wasteVolume
        > WASTE_COMPLIANCE.maxVolume := by
      rw [newDataOf, exNearBreachState, WASTE_COMPLIANCE, nextWasteVolume]
      norm_num [min_def]
    rw [checkCompliance]
    simp [h1])

/-- C9: after any feed delivery, the subscription error callback changes
the status to DB Error and nothing else — the reconciled feed stays
exactly the last delivered one, and the rest of the state (metrics, store)
is untouched. -/
theorem c9_feed_retained_on_error (st : AppState) (docs : List StoredDoc) :
    (handleSnapshotFailure (applyDelivery st docs)).incidents
        = (applyDelivery st docs).incidents
      ∧ (handleSnapshotFailure (applyDelivery st docs)).incidents
          = handleSnapshot docs
      ∧ (handleSnapshotFailure (applyDelivery st docs)).systemStatus = "DB Error"
      ∧ (handleSnapshotFailure (applyDelivery st docs)).governanceData
          = st.governanceData
      ∧ (handleSnapshotFailure (applyDelivery st docs)).store = st.store
      ∧ (handleSnapshotFailure (applyDelivery st docs)).isSimulationRunning
          = st.isSimulationRunning :=
  ⟨rfl, rfl, rfl, rfl, rfl, rfl⟩

/-- The append loop only ever adds stripped drafts, in order: its final
store is the initial store extended with the image under `stripTimestamp`
of some leading part of the draft list. -/
lemma appendSeq_store_spec (ds : List Draft) :
    ∀ store elog outs, ∃ k,
      (appendSeq store elog ds outs).1
        = store ++ (ds.take k).map stripTimestamp := by
  induction ds with
  | nil =>
      intro store elog outs
      exact ⟨0, by rw [appendSeq]; simp⟩
  | cons d ds ih =>
      intro store elog outs
      match outs with
      | [] =>
          obtain ⟨k, hk⟩ := ih (store ++ [stripTimestamp d]) elog []
          refine ⟨k + 1, ?_⟩
          rw [appendSeq, hk]
          simp
      | ok :: outs' =>
          match ok with
          | true =>
              obtain ⟨k, hk⟩ := ih (store ++ [stripTimestamp d]) elog outs'
              refine ⟨k + 1, ?_⟩
              rw [appendSeq]
              simp only [if_true]
              rw [hk]
              simp
          | false =>
              refine ⟨0, ?_⟩
              rw [appendSeq]
              simp

/-- C10: whatever a tick does, the store after it is the store before it
extended by the `stripTimestamp` image of a leading part of the fired
drafts — and a stripped draft consists of exactly the four fields type,
area, description, status (no timestamp of any kind, the `SavedRecord`
type has no such field). -/
theorem c10_persisted_fields_exact (st : AppState) (r1 r2 : ℚ)
    (nowStr : String) (outs : List Bool) :
    (∃ k, (runDigitalScan st r1 r2 nowStr outs).store
        = st.store
          ++ (((checkCompliance (newDataOf st r1 r2 nowStr)).incidents.take k).map
              stripTimestamp))
      ∧ ∀ d : Draft, stripTimestamp d
          = { type := d.type, area := d.area
              description := d.description, status := d.status } := by
  refine ⟨?_, fun d => rfl⟩
  rw [runDigitalScan]
  split
  · exact ⟨0, by simp⟩
  · dsimp only
    split
    · exact appendSeq_store_spec _ st.store st.errorLog outs
    · exact ⟨0, by simp⟩

/-- A record persisted earlier (server timestamp 100 s). -/
def exDocA : StoredDoc :=
  ⟨"a", ⟨"Sampah", "Cihampelas", "d1", "Pelanggaran Berat"⟩, some 100⟩

/-- A record persisted later (server timestamp 200 s). -/
def exDocB : StoredDoc :=
  ⟨"b", ⟨"Sampah", "Cihampelas", "d2", "Pelanggaran Berat"⟩, some 200⟩

/-- A delivery in which the older record arrives before the newer one —
not in descending timestamp order. -/
def exDelivery : List StoredDoc := [exDocA, exDocB]

/-- C1: the handler leaves the out-of-order delivery exactly as delivered
(the line-162 comparator computes `new Date` on display strings it cannot
parse, so every comparison is NaN and the sort moves nothing), and the
resulting feed violates the claimed invariant: it is not strictly
descending by normalized timestamp (100 before 200). -/
theorem c1_sort_is_noop :
    (handleSnapshot exDelivery).map (fun i => i.id) = ["a", "b"]
      ∧ normalizedTs exDelivery 1000 (fetchIncident exDocA) = 100
      ∧ normalizedTs exDelivery 1000 (fetchIncident exDocB) = 200
      ∧ ¬ ReconciledFeedInvariant exDelivery 1000 := by
  refine ⟨by decide, by decide, by decide, ?_⟩
  intro h
  rw [ReconciledFeedInvariant] at h
  exact absurd h.1 (by decide)

/-- The event trace in which tick 1 (two drafts) is still awaiting its
first append when the timer fires again, spawning tick 2 (one draft), and
only then does tick 1's first append resolve. -/
def exTrace : List SchedEvent :=
  [SchedEvent.timerFire 2, SchedEvent.timerFire 1, SchedEvent.storeResolve 1]

/-- C3 counterexample: under the trace above the append-start log is
(tick 1, draft 0), (tick 2, draft 0), (tick 1, draft 1): the two ticks'
append sequences interleave, so the claimed serialization does not hold. -/
theorem c3_interleaving_counterexample :
    (runSched schedInit exTrace).appendLog.map Prod.fst = [1, 2, 1]
      ∧ noInterleave ((runSched schedInit exTrace).appendLog.map Prod.fst)
          = false := by decide

/-- C3 (amended): the scheduler does not serialize overlapping ticks — a
timer fire whose scan produces drafts starts its first append immediately,
even while earlier ticks' append loops are still pending; the only skip
conditions are the line-175 guard (simulation stopped or collection ref
missing). -/
theorem c3_no_serialization (st : SchedState) (k : ℕ)
    (hrun : st.isSimulationRunning = true) (href : st.hasCollectionRef = true)
    (hk : k ≠ 0) (_hpending : st.procs ≠ []) :
    (stepSched st (SchedEvent.timerFire k)).appendLog
        = st.appendLog ++ [(st.nextTick, 0)]
      ∧ (stepSched st (SchedEvent.timerFire k)).procs
          = st.procs ++ [⟨st.nextTick, k, 1⟩] := by
  rw [stepSched]
  simp [hrun, href, hk]

/-- A scheduler state with tick 1's two-draft append loop still pending. -/
def exPendingState : SchedState :=
  { isSimulationRunning := true
    hasCollectionRef := true
    procs := [⟨1, 2, 1⟩]
    appendLog := [(1, 0)]
    nextTick := 2 }

/-- C3 witness: the amended statement applied to the pending state — the
new tick logs its first append at once. -/
theorem c3_no_serialization_witness :
    (stepSched exPendingState (SchedEvent.timerFire 1)).appendLog
        = exPendingState.appendLog ++ [(exPendingState.nextTick, 0)]
      ∧ (stepSched exPendingState (SchedEvent.timerFire 1)).procs
          = exPendingState.procs ++ [⟨exPendingState.nextTick, 1, 1⟩] :=
  c3_no_serialization exPendingState 1 rfl rfl (by decide) (by decide)
